import Mathlib

/-!
Shallow embedding of the client-registration backend (`app.py`).

The relational database is modelled by `DBState`: the committed `clients`
and `client_pictures` tables together with the auto-increment counters for
the surrogate primary keys.  The object store is modelled where an
operation touches it: presigned-URL issuance is an oracle
`PresignParams → Except String String` (a `ClientError` is the `.error`
case, carrying the provider message), and object deletion acts on a list
of stored keys, with a per-key failure oracle deciding which
`delete_object` calls raise `ClientError`.  Each Flask handler becomes a
pure function from the request data and the current state to the HTTP
outcome and the next state; an uncaught database integrity error (a
`NOT NULL` violation on insert) rolls the unit of work back, so it returns
the state unchanged.  Timestamps (`datetime.utcnow`) and the random
`uuid.uuid4()` token are inputs.
-/

/-- The nested `address` object: the five optional columns of `clients`,
as they appear both in the request payload and in `to_dict`. -/
structure Address where
  street : Option String
  city : Option String
  state : Option String
  zip : Option String
  country : Option String
  deriving Repr, DecidableEq

/-- One element of the `pictures` array of a `POST /api/clients` payload. -/
structure PicReq where
  key : Option String
  fileName : Option String
  fileType : Option String
  deriving Repr, DecidableEq

/-- The JSON payload of `POST /api/clients`; absent keys are `none`
(`data.get(...)` returns `None`). -/
structure CreateReq where
  clientId : Option String
  firstName : Option String
  lastName : Option String
  email : Option String
  phone : Option String
  dob : Option String
  address : Address
  notes : Option String
  pictures : List PicReq
  deriving Repr, DecidableEq

/-- The JSON payload of `POST /api/get-upload-url`. -/
structure UploadReq where
  fileName : Option String
  fileType : Option String
  clientId : Option String
  deriving Repr, DecidableEq

/-- A committed row of the `clients` table. -/
structure ClientRow where
  id : Nat
  client_id : String
  first_name : String
  last_name : String
  email : String
  phone : Option String
  dob : Option String
  street : Option String
  city : Option String
  state : Option String
  zip_code : Option String
  country : Option String
  notes : Option String
  created_at : Nat
  deriving Repr, DecidableEq

/-- A committed row of the `client_pictures` table; `client_id` is the
foreign key to `clients.id`. -/
structure PictureRow where
  id : Nat
  client_id : Nat
  s3_key : String
  file_name : Option String
  file_type : Option String
  uploaded_at : Nat
  deriving Repr, DecidableEq

/-- The committed database state: both tables plus the auto-increment
counters supplying the next surrogate primary keys. -/
structure DBState where
  clients : List ClientRow
  pictures : List PictureRow
  nextClientId : Nat
  nextPictureId : Nat
  deriving Repr, DecidableEq

/-- The empty database, as created by `db.create_all()`. -/
def emptyDB : DBState :=
  { clients := [], pictures := [], nextClientId := 1, nextPictureId := 1 }

/-- `ClientPicture.to_dict`: the JSON shape of one picture, with the
retrieval URL computed from the bucket name and the stored key. -/
structure PicDict where
  id : Nat
  s3_key : String
  file_name : Option String
  file_type : Option String
  url : String
  deriving Repr, DecidableEq

/-- `Client.to_dict`: the JSON shape of one client record. -/
structure ClientDict where
  id : Nat
  client_id : String
  first_name : String
  last_name : String
  email : String
  phone : Option String
  dob : Option String
  address : Address
  notes : Option String
  pictures : List PicDict
  created_at : Nat
  deriving Repr, DecidableEq

/-- The error outcomes of the registry routes, with their HTTP status. -/
inductive AppErr where
  | conflict : String → AppErr
  | notFound : AppErr
  | integrityViolation : AppErr
  deriving Repr, DecidableEq

/-- HTTP status of each error outcome: 409 for the duplicate-identifier
body, 404 from `first_or_404`, 500 for an unhandled database error. -/
def AppErr.status : AppErr → Nat
  | .conflict _ => 409
  | .notFound => 404
  | .integrityViolation => 500

/-- Body of the 201 response of `create_client`. -/
structure CreateResp where
  message : String
  clientId : String
  id : Nat
  deriving Repr, DecidableEq

/-- Body of the 200 response of `delete_client`. -/
structure DeleteResp where
  message : String
  deriving Repr, DecidableEq

/-- Body of the 200 response of `get_upload_url`. -/
structure UploadResp where
  uploadUrl : String
  key : String
  deriving Repr, DecidableEq

/-- Body and status of the 500 response of `get_upload_url`. -/
structure ErrResp where
  error : String
  status : Nat
  deriving Repr, DecidableEq

/-- The arguments `get_upload_url` passes to
`s3_client.generate_presigned_url`. -/
structure PresignParams where
  op : String
  bucket : String
  key : String
  contentType : String
  expiresIn : Nat
  deriving Repr, DecidableEq

/-- The object key built in `get_upload_url`:
`f"clients/{client_id}/{uuid.uuid4()}_{file_name}"`, with the fresh
`uuid.uuid4()` value passed in as `token`. -/
def makeS3Key (clientId fileName token : String) : String :=
  "clients/" ++ clientId ++ "/" ++ token ++ "_" ++ fileName

/-- The presign request `get_upload_url` issues: operation `put_object`,
the configured bucket, the generated key, the declared content type, and
`ExpiresIn=300`.  The three payload fields default to `file`,
`application/octet-stream` and `unknown` when absent. -/
def uploadParams (bucket token : String) (data : UploadReq) : PresignParams :=
  { op := "put_object"
    bucket := bucket
    key := makeS3Key (data.clientId.getD "unknown") (data.fileName.getD "file") token
    contentType := data.fileType.getD "application/octet-stream"
    expiresIn := 300 }

/-- Handler of `POST /api/get-upload-url`.  `presign` is the object-store
oracle (`generate_presigned_url`); its `.error` case is a raised
`ClientError` with the provider message, answered with status 500. -/
def get_upload_url (presign : PresignParams → Except String String)
    (bucket token : String) (data : UploadReq) : Except ErrResp UploadResp :=
  match presign (uploadParams bucket token data) with
  | .ok url => .ok { uploadUrl := url, key := (uploadParams bucket token data).key }
  | .error e => .error { error := e, status := 500 }

/-- The `NOT NULL` columns the insert of `create_client` populates:
`clients.client_id`, `first_name`, `last_name`, `email` and every
`client_pictures.s3_key`.  A `none` in any of them makes the unit of work
fail with a database integrity error. -/
def requiredPresent (data : CreateReq) : Bool :=
  data.clientId.isSome && data.firstName.isSome && data.lastName.isSome &&
    data.email.isSome && data.pictures.all (fun p => p.key.isSome)

/-- The `client_pictures` rows inserted for the `pictures` array, with
sequential surrogate ids from `startId` and the owning client's
surrogate id. -/
def picRows (startId ownerId now : Nat) : List PicReq → List PictureRow
  | [] => []
  | p :: ps =>
    { id := startId, client_id := ownerId, s3_key := p.key.getD "",
      file_name := p.fileName, file_type := p.fileType, uploaded_at := now } ::
      picRows (startId + 1) ownerId now ps

/-- The `clients` row assembled by `create_client` from the payload, with
the next auto-increment surrogate id and the insert timestamp. -/
def newClientRow (now : Nat) (data : CreateReq) (st : DBState) : ClientRow :=
  { id := st.nextClientId
    client_id := data.clientId.getD ""
    first_name := data.firstName.getD ""
    last_name := data.lastName.getD ""
    email := data.email.getD ""
    phone := data.phone
    dob := data.dob
    street := data.address.street
    city := data.address.city
    state := data.address.state
    zip_code := data.address.zip
    country := data.address.country
    notes := data.notes
    created_at := now }

/-- The database state once the unit of work of a successful
`create_client` commits: the client row together with all its picture
rows, in one commit. -/
def createdState (now : Nat) (data : CreateReq) (st : DBState) : DBState :=
  { clients := st.clients ++ [newClientRow now data st]
    pictures := st.pictures ++ picRows st.nextPictureId st.nextClientId now data.pictures
    nextClientId := st.nextClientId + 1
    nextPictureId := st.nextPictureId + data.pictures.length }

/-- Handler of `POST /api/clients`: the duplicate check
(`filter_by(client_id=data.get('clientId')).first()`, with SQL `NULL`
comparison semantics, so a missing payload id matches no row), then one
client row plus one picture row per descriptor, committed as one unit of
work.  Returns the possibly-unchanged state alongside the outcome. -/
def create_client (now : Nat) (data : CreateReq) (st : DBState) :
    Except AppErr CreateResp × DBState :=
  if st.clients.any (fun c => data.clientId == some c.client_id) then
    (.error (.conflict "Client ID already exists"), st)
  else if requiredPresent data then
    (.ok { message := "Client registered", clientId := (newClientRow now data st).client_id,
           id := (newClientRow now data st).id },
     createdState now data st)
  else
    (.error .integrityViolation, st)

/-- The `Client.pictures` relationship: the picture rows whose foreign key
is this client's surrogate id, in insertion order. -/
def clientPictures (pics : List PictureRow) (ownerId : Nat) : List PictureRow :=
  pics.filter (fun p => p.client_id == ownerId)

/-- `ClientPicture.to_dict`. -/
def pictureToDict (bucket : String) (p : PictureRow) : PicDict :=
  { id := p.id
    s3_key := p.s3_key
    file_name := p.file_name
    file_type := p.file_type
    url := "https://" ++ bucket ++ ".s3.amazonaws.com/" ++ p.s3_key }

/-- `Client.to_dict`, including the nested `address` object and the
pictures of the relationship. -/
def clientToDict (bucket : String) (pics : List PictureRow) (c : ClientRow) : ClientDict :=
  { id := c.id
    client_id := c.client_id
    first_name := c.first_name
    last_name := c.last_name
    email := c.email
    phone := c.phone
    dob := c.dob
    address :=
      { street := c.street, city := c.city, state := c.state,
        zip := c.zip_code, country := c.country }
    notes := c.notes
    pictures := (clientPictures pics c.id).map (pictureToDict bucket)
    created_at := c.created_at }

/-- Handler of `GET /api/clients/<client_id>`: `filter_by` on the external
identifier, `first_or_404`, then `to_dict`. -/
def get_client (bucket : String) (cid : String) (st : DBState) :
    Except AppErr ClientDict :=
  match st.clients.find? (fun c => c.client_id == cid) with
  | none => .error .notFound
  | some c => .ok (clientToDict bucket st.pictures c)

/-- The sort key of `order_by(Client.created_at.desc())`: descending
creation timestamp. -/
def clientOrder (a b : ClientRow) : Prop :=
  b.created_at ≤ a.created_at

instance : DecidableRel clientOrder :=
  fun a b => Nat.decLe b.created_at a.created_at

instance : IsTotal ClientRow clientOrder :=
  ⟨fun a b => (Nat.le_total b.created_at a.created_at).imp id id⟩

instance : IsTrans ClientRow clientOrder :=
  ⟨fun _ _ _ h h' => Nat.le_trans h' h⟩

/-- Handler of `GET /api/clients`: all rows ordered by `created_at`
descending, each serialized by `to_dict`. -/
def get_clients (bucket : String) (st : DBState) : List ClientDict :=
  (List.insertionSort clientOrder st.clients).map (clientToDict bucket st.pictures)

/-- One `s3_client.delete_object` call inside `delete_client`: on a
`ClientError` (decided by the oracle `s3fail`) the exception is swallowed
and the store is untouched, otherwise the key is removed. -/
def s3TryDelete (s3fail : String → Bool) (store : List String) (k : String) :
    List String :=
  if s3fail k then store else store.filter (fun x => x != k)

/-- Handler of `DELETE /api/clients/<client_id>`: `first_or_404`,
best-effort deletion of every owned object from the store, then deletion
of the client row, cascading to its picture rows, in one unit of work. -/
def delete_client (s3fail : String → Bool) (cid : String) (st : DBState)
    (store : List String) : Except AppErr DeleteResp × DBState × List String :=
  match st.clients.find? (fun c => c.client_id == cid) with
  | none => (.error .notFound, st, store)
  | some c =>
    (.ok { message := "Client " ++ cid ++ " deleted" },
     { st with
       clients := st.clients.filter (fun x => x.id != c.id)
       pictures := st.pictures.filter (fun p => p.client_id != c.id) },
     (clientPictures st.pictures c.id).foldl
       (fun s p => s3TryDelete s3fail s p.s3_key) store)

/-- Replays a sequence of `create_client` calls (each with its timestamp)
from the empty database; a failed call leaves the state as it was. -/
def runCreates (reqs : List (Nat × CreateReq)) : DBState :=
  reqs.foldl (fun st tr => (create_client tr.1 tr.2 st).2) emptyDB

/-- The database invariants the schema enforces: the unique constraint on
`clients.client_id`, primary-key uniqueness, and freshness of the
auto-increment counter over both the client rows and the foreign keys of
the picture rows. -/
structure DBInv (st : DBState) : Prop where
  uniqueCid : ∀ a ∈ st.clients, ∀ b ∈ st.clients, a.client_id = b.client_id → a = b
  uniqueSid : ∀ a ∈ st.clients, ∀ b ∈ st.clients, a.id = b.id → a = b
  idLt : ∀ c ∈ st.clients, c.id < st.nextClientId
  picLt : ∀ p ∈ st.pictures, p.client_id < st.nextClientId

/-! ### Concrete values used by the witnesses -/

/-- A presign oracle that always grants. -/
def presignOK : PresignParams → Except String String :=
  fun p => .ok ("signed:" ++ p.key)

/-- A presign oracle that always raises `ClientError`. -/
def presignBad : PresignParams → Except String String :=
  fun _ => .error "provider unavailable"

/-- Concrete upload payload. -/
def exUploadData : UploadReq :=
  { fileName := some "photo.png", fileType := some "image/png", clientId := some "C123" }

/-- Concrete successful upload-grant response. -/
def respEx : UploadResp :=
  { uploadUrl := "signed:" ++ makeS3Key "C123" "photo.png" "tok"
    key := makeS3Key "C123" "photo.png" "tok" }

/-- A stored client row. -/
def rowA : ClientRow :=
  { id := 1, client_id := "C1", first_name := "Ann", last_name := "Lee",
    email := "ann@example.com", phone := none, dob := none, street := none,
    city := none, state := none, zip_code := none, country := none,
    notes := none, created_at := 0 }

/-- A database holding just `rowA`. -/
def stA : DBState :=
  { clients := [rowA], pictures := [], nextClientId := 2, nextPictureId := 1 }

/-- A payload reusing the external identifier of `rowA`. -/
def reqDup : CreateReq :=
  { clientId := some "C1", firstName := some "Bo", lastName := some "Kim",
    email := some "bo@example.com", phone := none, dob := none,
    address := { street := none, city := none, state := none, zip := none, country := none },
    notes := none, pictures := [] }

/-- A stored picture row owned by `rowA`. -/
def picB : PictureRow :=
  { id := 1, client_id := 1, s3_key := "clients/C1/t_p.png",
    file_name := some "p.png", file_type := some "image/png", uploaded_at := 0 }

/-- A database holding `rowA` with one picture. -/
def stB : DBState :=
  { clients := [rowA], pictures := [picB], nextClientId := 2, nextPictureId := 2 }

/-- `stB` after `rowA` and its picture row are deleted. -/
def stBdel : DBState :=
  { clients := [], pictures := [], nextClientId := 2, nextPictureId := 2 }

/-- A registration payload with a full address and one picture. -/
def reqC : CreateReq :=
  { clientId := some "C7", firstName := some "Ann", lastName := some "Lee",
    email := some "ann@example.com", phone := some "555", dob := none,
    address := { street := some "1 Main St", city := some "Springfield",
                 state := some "IL", zip := some "62701", country := some "US" },
    notes := some "vip",
    pictures := [{ key := some "clients/C7/t1_a.png", fileName := some "a.png",
                   fileType := some "image/png" }] }

/-- The response of registering `reqC` on the empty database. -/
def respC : CreateResp :=
  { message := "Client registered", clientId := "C7", id := 1 }

/-- The database after registering `reqC` on the empty database. -/
def stC : DBState := (create_client 10 reqC emptyDB).2

/-- Three rows with increasing creation timestamps. -/
def rowT1 : ClientRow := { rowA with id := 1, created_at := 1 }

/-- Second row, created later than `rowT1`. -/
def rowT2 : ClientRow := { rowA with id := 2, created_at := 2 }

/-- Third row, created later than `rowT2`. -/
def rowT3 : ClientRow := { rowA with id := 3, created_at := 3 }

/-! ### Helper lemmas about the object key -/

theorem makeS3Key_assoc (c f t : String) :
    makeS3Key c f t = ("clients/" ++ c ++ "/") ++ (t ++ ("_" ++ f)) := by
  simp [makeS3Key, String.append_assoc]

theorem makeS3Key_inj (c f t t' : String)
    (h : makeS3Key c f t = makeS3Key c f t') : t = t' := by
  have hd := congrArg String.data h
  simp only [makeS3Key, String.data_append, List.append_assoc] at hd
  have h1 := List.append_cancel_left hd
  have h2 := List.append_cancel_left h1
  have h3 := List.append_cancel_left h2
  exact String.ext (List.append_cancel_right h3)

theorem makeS3Key_c123 (tok : String) :
    makeS3Key "C123" "photo.png" tok = "clients/C123/" ++ (tok ++ "_photo.png") := by
  show (("clients/C123/" ++ tok) ++ "_") ++ "photo.png" = _
  rw [String.append_assoc ("clients/C123/" ++ tok) "_" "photo.png",
    String.append_assoc "clients/C123/" tok ("_" ++ "photo.png")]
  rfl

theorem makeS3Key_unknown_file (tok : String) :
    makeS3Key "unknown" "file" tok = "clients/unknown/" ++ (tok ++ "_file") := by
  show (("clients/unknown/" ++ tok) ++ "_") ++ "file" = _
  rw [String.append_assoc ("clients/unknown/" ++ tok) "_" "file",
    String.append_assoc "clients/unknown/" tok ("_" ++ "file")]
  rfl

/-! ### C5 -/

/-- Claim C5: the object key generator returns
`clients/{clientIdentifier}/{randomUniqueToken}_{fileName}`; for inputs
`("photo.png", "image/png", "C123")` the key begins with `clients/C123/`
and ends with `_photo.png`; and two calls with the same inputs but
distinct fresh tokens return different keys. -/
theorem upload_key_form_and_fresh :
    (∀ cid fn tok, makeS3Key cid fn tok = "clients/" ++ cid ++ "/" ++ tok ++ "_" ++ fn) ∧
    (∀ tok, (∃ rest, makeS3Key "C123" "photo.png" tok = "clients/C123/" ++ rest) ∧
      (∃ front, makeS3Key "C123" "photo.png" tok = front ++ "_photo.png")) ∧
    (∀ cid fn tok tok', tok ≠ tok' → makeS3Key cid fn tok ≠ makeS3Key cid fn tok') := by
  refine ⟨fun _ _ _ => rfl, fun tok => ⟨⟨tok ++ "_photo.png", makeS3Key_c123 tok⟩,
    ⟨"clients/C123/" ++ tok, ?_⟩⟩,
    fun cid fn tok tok' hne he => hne (makeS3Key_inj _ _ _ _ he)⟩
  show (("clients/C123/" ++ tok) ++ "_") ++ "photo.png" = _
  rw [String.append_assoc ("clients/C123/" ++ tok) "_" "photo.png"]
  rfl

/-- Witness for C5 at concrete tokens. -/
theorem upload_key_form_and_fresh_witness :
    makeS3Key "C123" "photo.png" "t1" ≠ makeS3Key "C123" "photo.png" "t2" :=
  upload_key_form_and_fresh.2.2 "C123" "photo.png" "t1" "t2" (by decide)

/-! ### C6 -/

/-- Claim C6: a successful `get_upload_url` asked the object store for a grant
scoped to exactly the operation `put_object`, the configured bucket, the
generated key and the declared content type, with `ExpiresIn = 300`, and
returned that grant together with the key. -/
theorem upload_grant_scoped (presign : PresignParams → Except String String)
    (bucket token : String) (data : UploadReq) (resp : UploadResp)
    (h : get_upload_url presign bucket token data = .ok resp) :
    presign (uploadParams bucket token data) = .ok resp.uploadUrl ∧
    resp.key = makeS3Key (data.clientId.getD "unknown") (data.fileName.getD "file") token ∧
    (uploadParams bucket token data).op = "put_object" ∧
    (uploadParams bucket token data).bucket = bucket ∧
    (uploadParams bucket token data).key = resp.key ∧
    (uploadParams bucket token data).contentType = data.fileType.getD "application/octet-stream" ∧
    (uploadParams bucket token data).expiresIn = 300 := by
  unfold get_upload_url at h
  split at h
  · rename_i url hp
    injection h with h2
    subst h2
    exact ⟨hp, rfl, rfl, rfl, rfl, rfl, rfl⟩
  · simp at h

/-- Witness for C6 at a concrete oracle, bucket, token and payload. -/
theorem upload_grant_scoped_witness :
    presignOK (uploadParams "bkt" "tok" exUploadData) = .ok respEx.uploadUrl ∧
    respEx.key = makeS3Key (exUploadData.clientId.getD "unknown") (exUploadData.fileName.getD "file") "tok" ∧
    (uploadParams "bkt" "tok" exUploadData).op = "put_object" ∧
    (uploadParams "bkt" "tok" exUploadData).bucket = "bkt" ∧
    (uploadParams "bkt" "tok" exUploadData).key = respEx.key ∧
    (uploadParams "bkt" "tok" exUploadData).contentType = exUploadData.fileType.getD "application/octet-stream" ∧
    (uploadParams "bkt" "tok" exUploadData).expiresIn = 300 :=
  upload_grant_scoped presignOK "bkt" "tok" exUploadData respEx (by rfl)

/-! ### C7 -/

/-- Claim C7: when the object store rejects grant issuance, `get_upload_url`
answers with status 500 and a body carrying the provider message. -/
theorem upload_grant_error (presign : PresignParams → Except String String)
    (bucket token : String) (data : UploadReq) (msg : String)
    (h : presign (uploadParams bucket token data) = .error msg) :
    get_upload_url presign bucket token data = .error { error := msg, status := 500 } := by
  unfold get_upload_url
  rw [h]

/-- Witness for C7 at a concrete failing oracle. -/
theorem upload_grant_error_witness :
    get_upload_url presignBad "bkt" "tok" exUploadData =
      .error { error := "provider unavailable", status := 500 } :=
  upload_grant_error presignBad "bkt" "tok" exUploadData "provider unavailable" rfl

/-! ### C10 -/

/-- Claim C10: each of the three payload fields of `get_upload_url`, when
absent, is silently defaulted (`file`, `application/octet-stream`,
`unknown`); an empty payload still succeeds whenever the store grants,
with key `clients/unknown/{token}_file`. -/
theorem upload_defaults (presign : PresignParams → Except String String)
    (bucket token : String) (fn ft cid : Option String) :
    get_upload_url presign bucket token { fileName := none, fileType := ft, clientId := cid } =
      get_upload_url presign bucket token { fileName := some "file", fileType := ft, clientId := cid } ∧
    get_upload_url presign bucket token { fileName := fn, fileType := none, clientId := cid } =
      get_upload_url presign bucket token { fileName := fn, fileType := some "application/octet-stream", clientId := cid } ∧
    get_upload_url presign bucket token { fileName := fn, fileType := ft, clientId := none } =
      get_upload_url presign bucket token { fileName := fn, fileType := ft, clientId := some "unknown" } ∧
    (∀ url, presign (uploadParams bucket token { fileName := none, fileType := none, clientId := none }) = .ok url →
      get_upload_url presign bucket token { fileName := none, fileType := none, clientId := none } =
        .ok { uploadUrl := url, key := "clients/unknown/" ++ (token ++ "_file") }) := by
  refine ⟨rfl, rfl, rfl, fun url hp => ?_⟩
  unfold get_upload_url
  rw [hp]
  have hk : (uploadParams bucket token { fileName := none, fileType := none, clientId := none }).key =
      "clients/unknown/" ++ (token ++ "_file") := makeS3Key_unknown_file token
  rw [hk]

/-- Witness for C10 at a concrete oracle and token. -/
theorem upload_defaults_witness :
    get_upload_url presignOK "bkt" "tok" { fileName := none, fileType := none, clientId := none } =
      .ok { uploadUrl := "signed:" ++ makeS3Key "unknown" "file" "tok",
            key := "clients/unknown/" ++ ("tok" ++ "_file") } :=
  (upload_defaults presignOK "bkt" "tok" none none none).2.2.2
    ("signed:" ++ makeS3Key "unknown" "file" "tok") rfl

/-! ### Helper lemmas about the registry -/

theorem mem_picRows (startId ownerId now : Nat) (ps : List PicReq) (p : PictureRow)
    (hp : p ∈ picRows startId ownerId now ps) : p.client_id = ownerId := by
  induction ps generalizing startId with
  | nil => simp [picRows] at hp
  | cons q qs ih =>
    simp only [picRows, List.mem_cons] at hp
    rcases hp with h | h
    · rw [h]
    · exact ih _ h

theorem picRows_length (startId ownerId now : Nat) (ps : List PicReq) :
    (picRows startId ownerId now ps).length = ps.length := by
  induction ps generalizing startId with
  | nil => rfl
  | cons q qs ih => simp [picRows, ih]

theorem picRows_keys (startId ownerId now : Nat) (ps : List PicReq)
    (h : ∀ q ∈ ps, q.key.isSome = true) :
    (picRows startId ownerId now ps).map (fun r => some r.s3_key) =
      ps.map (fun q => q.key) := by
  induction ps generalizing startId with
  | nil => rfl
  | cons q qs ih =>
    obtain ⟨k, hk⟩ := Option.isSome_iff_exists.mp (h q (List.mem_cons_self q qs))
    simp [picRows, hk, ih _ (fun r hr => h r (List.mem_cons_of_mem q hr))]

theorem requiredPresent_clientId (data : CreateReq) (h : requiredPresent data = true) :
    ∃ s, data.clientId = some s := by
  simp only [requiredPresent, Bool.and_eq_true] at h
  exact Option.isSome_iff_exists.mp h.1.1.1.1

theorem requiredPresent_keys (data : CreateReq) (h : requiredPresent data = true) :
    ∀ q ∈ data.pictures, q.key.isSome = true := by
  simp only [requiredPresent, Bool.and_eq_true, List.all_eq_true] at h
  exact h.2

theorem create_ok_dest (now : Nat) (data : CreateReq) (st : DBState)
    (resp : CreateResp) (st' : DBState)
    (h : create_client now data st = (.ok resp, st')) :
    (∀ c ∈ st.clients, data.clientId ≠ some c.client_id) ∧
    requiredPresent data = true ∧
    resp = { message := "Client registered", clientId := (newClientRow now data st).client_id,
             id := (newClientRow now data st).id } ∧
    st' = createdState now data st := by
  unfold create_client at h
  split_ifs at h with h1 h2
  · simp at h
  · injection h with ha hb
    injection ha with hc
    refine ⟨?_, h2, hc.symm, hb.symm⟩
    intro c hc' he
    exact h1 (List.any_eq_true.mpr ⟨c, hc', by simp [he]⟩)
  · simp at h

theorem create_dup (now : Nat) (data : CreateReq) (st : DBState) (c : ClientRow)
    (hc : c ∈ st.clients) (hid : data.clientId = some c.client_id) :
    create_client now data st = (.error (.conflict "Client ID already exists"), st) := by
  unfold create_client
  rw [if_pos (List.any_eq_true.mpr ⟨c, hc, by simp [hid]⟩)]

theorem dbinv_empty : DBInv emptyDB := by
  constructor <;> simp [emptyDB]

theorem dbinv_create (now : Nat) (data : CreateReq) (st : DBState) (hinv : DBInv st) :
    DBInv (create_client now data st).2 := by
  unfold create_client
  split_ifs with h1 h2
  · exact hinv
  · show DBInv (createdState now data st)
    have hnodup : ∀ c ∈ st.clients, data.clientId ≠ some c.client_id := fun c hc he =>
      h1 (List.any_eq_true.mpr ⟨c, hc, by simp [he]⟩)
    obtain ⟨s, hs⟩ := requiredPresent_clientId data h2
    have hrowcid : (newClientRow now data st).client_id = s := by
      simp [newClientRow, hs]
    constructor
    · intro a ha b hb he
      simp only [createdState, List.mem_append, List.mem_singleton] at ha hb
      rcases ha with ha | ha <;> rcases hb with hb | hb
      · exact hinv.uniqueCid a ha b hb he
      · subst hb
        rw [hrowcid] at he
        exact absurd (show data.clientId = some a.client_id by rw [hs, he]) (hnodup a ha)
      · subst ha
        rw [hrowcid] at he
        exact absurd (show data.clientId = some b.client_id by rw [hs, ← he]) (hnodup b hb)
      · rw [ha, hb]
    · intro a ha b hb he
      simp only [createdState, List.mem_append, List.mem_singleton] at ha hb
      rcases ha with ha | ha <;> rcases hb with hb | hb
      · exact hinv.uniqueSid a ha b hb he
      · subst hb
        exact absurd he (Nat.ne_of_lt (hinv.idLt a ha))
      · subst ha
        exact absurd he.symm (Nat.ne_of_lt (hinv.idLt b hb))
      · rw [ha, hb]
    · intro c hc
      simp only [createdState, List.mem_append, List.mem_singleton] at hc
      rcases hc with hc | hc
      · exact Nat.lt_succ_of_lt (hinv.idLt c hc)
      · rw [hc]
        exact Nat.lt_succ_self _
    · intro p hp
      simp only [createdState, List.mem_append] at hp
      rcases hp with hp | hp
      · exact Nat.lt_succ_of_lt (hinv.picLt p hp)
      · rw [mem_picRows st.nextPictureId st.nextClientId now data.pictures p hp]
        exact Nat.lt_succ_self _
  · exact hinv

theorem dbinv_delete (s3fail : String → Bool) (cid : String) (st : DBState)
    (store : List String) (hinv : DBInv st) :
    DBInv (delete_client s3fail cid st store).2.1 := by
  unfold delete_client
  cases hf : st.clients.find? (fun c => c.client_id == cid) with
  | none => exact hinv
  | some c =>
    constructor
    · intro a ha b hb he
      exact hinv.uniqueCid a (List.mem_filter.mp ha).1 b (List.mem_filter.mp hb).1 he
    · intro a ha b hb he
      exact hinv.uniqueSid a (List.mem_filter.mp ha).1 b (List.mem_filter.mp hb).1 he
    · intro x hx
      exact hinv.idLt x (List.mem_filter.mp hx).1
    · intro p hp
      exact hinv.picLt p (List.mem_filter.mp hp).1

theorem foldl_tryDelete_allfail (l : List PictureRow) (store : List String) :
    l.foldl (fun s p => s3TryDelete (fun _ => true) s p.s3_key) store = store := by
  induction l generalizing store with
  | nil => rfl
  | cons q qs ih =>
    rw [List.foldl_cons]
    exact ih store

theorem dbinv_foldl (reqs : List (Nat × CreateReq)) (st : DBState) (hinv : DBInv st) :
    DBInv (reqs.foldl (fun s tr => (create_client tr.1 tr.2 s).2) st) := by
  induction reqs generalizing st with
  | nil => exact hinv
  | cons r rs ih => exact ih _ (dbinv_create r.1 r.2 st hinv)

theorem dbinv_runCreates (reqs : List (Nat × CreateReq)) : DBInv (runCreates reqs) :=
  dbinv_foldl reqs emptyDB dbinv_empty

/-! ### C1 -/

/-- Claim C1: over any sequence of `create_client` calls, no two
successfully-created clients share an external identifier; and a call
whose payload identifier already exists among stored clients fails with
the duplicate-identifier error (HTTP 409) leaving the database unchanged,
so no client row and no picture rows are inserted. -/
theorem create_unique_identifier :
    (∀ reqs : List (Nat × CreateReq), ∀ a ∈ (runCreates reqs).clients,
        ∀ b ∈ (runCreates reqs).clients, a.client_id = b.client_id → a = b) ∧
    (∀ now data st, ∀ c ∈ st.clients, data.clientId = some c.client_id →
        create_client now data st = (.error (.conflict "Client ID already exists"), st) ∧
        (AppErr.conflict "Client ID already exists").status = 409) :=
  ⟨fun reqs => (dbinv_runCreates reqs).uniqueCid,
   fun now data st c hc hid => ⟨create_dup now data st c hc hid, rfl⟩⟩

/-- Witness for C1: a second registration of identifier `C1` is rejected
with status 409 and the state is returned unchanged. -/
theorem create_unique_identifier_witness :
    create_client 5 reqDup stA = (.error (.conflict "Client ID already exists"), stA) ∧
    (AppErr.conflict "Client ID already exists").status = 409 :=
  create_unique_identifier.2 5 reqDup stA rowA (by simp [stA]) rfl

/-! ### C2 and C9 -/

theorem createdState_clientPictures (now : Nat) (data : CreateReq) (st : DBState)
    (hinv : DBInv st) :
    clientPictures (createdState now data st).pictures (newClientRow now data st).id =
      picRows st.nextPictureId st.nextClientId now data.pictures := by
  show (st.pictures ++ picRows st.nextPictureId st.nextClientId now data.pictures).filter _ = _
  rw [List.filter_append]
  have hold : st.pictures.filter
      (fun p => p.client_id == (newClientRow now data st).id) = [] := by
    rw [List.filter_eq_nil_iff]
    intro p hp hbeq
    have hlt := hinv.picLt p hp
    have hpe : p.client_id = st.nextClientId := by simpa using hbeq
    omega
  have hnew : (picRows st.nextPictureId st.nextClientId now data.pictures).filter
      (fun p => p.client_id == (newClientRow now data st).id) =
      picRows st.nextPictureId st.nextClientId now data.pictures :=
    List.filter_eq_self.mpr fun p hp => by
      simp [mem_picRows st.nextPictureId st.nextClientId now data.pictures p hp, newClientRow]
  rw [hold, hnew, List.nil_append]

theorem get_client_after_create (bucket : String) (now : Nat) (data : CreateReq)
    (st : DBState) (resp : CreateResp) (st' : DBState)
    (h : create_client now data st = (.ok resp, st')) :
    get_client bucket resp.clientId st' =
      .ok (clientToDict bucket st'.pictures (newClientRow now data st)) := by
  obtain ⟨hnodup, hreq, hresp, hst⟩ := create_ok_dest now data st resp st' h
  obtain ⟨s, hs⟩ := requiredPresent_clientId data hreq
  subst hst
  have hrowcid : (newClientRow now data st).client_id = s := by
    simp [newClientRow, hs]
  have hrcid : resp.clientId = s := by
    rw [hresp]
    exact hrowcid
  have h1 : st.clients.find? (fun c => c.client_id == resp.clientId) = none := by
    rw [List.find?_eq_none]
    intro x hx hbeq
    have hxe : x.client_id = resp.clientId := by simpa using hbeq
    exact hnodup x hx (hs.trans (congrArg some (hxe.trans hrcid)).symm)
  have hfind : (createdState now data st).clients.find?
      (fun c => c.client_id == resp.clientId) = some (newClientRow now data st) := by
    show (st.clients ++ [newClientRow now data st]).find? _ = _
    rw [List.find?_append, h1]
    simp [List.find?, hrowcid, hrcid]
  unfold get_client
  rw [hfind]

/-- Claim C2: after a successful `create_client`, fetching the client by the
returned external identifier yields a record whose picture list has the
same length and exactly the submitted object keys; the committed state is
the single `createdState` unit of work, so the rows appear together. -/
theorem create_then_get (bucket : String) (now : Nat) (data : CreateReq)
    (st : DBState) (resp : CreateResp) (st' : DBState) (hinv : DBInv st)
    (h : create_client now data st = (.ok resp, st')) :
    get_client bucket resp.clientId st' =
      .ok (clientToDict bucket st'.pictures (newClientRow now data st)) ∧
    (clientToDict bucket st'.pictures (newClientRow now data st)).pictures.length =
      data.pictures.length ∧
    (clientToDict bucket st'.pictures (newClientRow now data st)).pictures.map
        (fun p => some p.s3_key) = data.pictures.map (fun q => q.key) := by
  obtain ⟨hnodup, hreq, hresp, hst⟩ := create_ok_dest now data st resp st' h
  have hpics := createdState_clientPictures now data st hinv
  refine ⟨get_client_after_create bucket now data st resp st' h, ?_, ?_⟩
  · subst hst
    show ((clientPictures (createdState now data st).pictures
        (newClientRow now data st).id).map (pictureToDict bucket)).length = _
    rw [hpics, List.length_map]
    exact picRows_length st.nextPictureId st.nextClientId now data.pictures
  · subst hst
    show ((clientPictures (createdState now data st).pictures
        (newClientRow now data st).id).map (pictureToDict bucket)).map
        (fun p => some p.s3_key) = _
    rw [hpics, List.map_map]
    exact picRows_keys st.nextPictureId st.nextClientId now data.pictures
      (requiredPresent_keys data hreq)

/-- Witness for C2: registering `reqC` on the empty database and fetching
`C7` returns its single picture with the submitted key. -/
theorem create_then_get_witness :
    get_client "bkt" respC.clientId stC =
      .ok (clientToDict "bkt" stC.pictures (newClientRow 10 reqC emptyDB)) ∧
    (clientToDict "bkt" stC.pictures (newClientRow 10 reqC emptyDB)).pictures.length =
      reqC.pictures.length ∧
    (clientToDict "bkt" stC.pictures (newClientRow 10 reqC emptyDB)).pictures.map
        (fun p => some p.s3_key) = reqC.pictures.map (fun q => q.key) :=
  create_then_get "bkt" 10 reqC emptyDB respC stC dbinv_empty (by rfl)

/-- Claim C9: a client created with nested address fields round-trips through
`get_client` with the identical nested `address` object. -/
theorem create_address_roundtrip (bucket : String) (now : Nat) (data : CreateReq)
    (st : DBState) (resp : CreateResp) (st' : DBState)
    (h : create_client now data st = (.ok resp, st')) :
    get_client bucket resp.clientId st' =
      .ok (clientToDict bucket st'.pictures (newClientRow now data st)) ∧
    (clientToDict bucket st'.pictures (newClientRow now data st)).address =
      data.address :=
  ⟨get_client_after_create bucket now data st resp st' h, rfl⟩

/-- Witness for C9 at the Springfield address of the spec. -/
theorem create_address_roundtrip_witness :
    get_client "bkt" respC.clientId stC =
      .ok (clientToDict "bkt" stC.pictures (newClientRow 10 reqC emptyDB)) ∧
    (clientToDict "bkt" stC.pictures (newClientRow 10 reqC emptyDB)).address =
      { street := some "1 Main St", city := some "Springfield", state := some "IL",
        zip := some "62701", country := some "US" } :=
  create_address_roundtrip "bkt" 10 reqC emptyDB respC stC (by rfl)

/-! ### C3 -/

/-- Claim C3: after a successful `delete_client`, fetching the same external
identifier fails with the not-found error (HTTP 404), and no picture row
referencing the deleted client's surrogate id remains in the committed
state — the row deletion cascades in the same unit of work. -/
theorem delete_then_get (bucket : String) (s3fail : String → Bool) (cid : String)
    (st : DBState) (store : List String) (c : ClientRow) (resp : DeleteResp)
    (st' : DBState) (store' : List String) (hinv : DBInv st)
    (hf : st.clients.find? (fun x => x.client_id == cid) = some c)
    (h : delete_client s3fail cid st store = (.ok resp, st', store')) :
    get_client bucket cid st' = .error .notFound ∧
    AppErr.notFound.status = 404 ∧
    st'.pictures.all (fun p => p.client_id != c.id) = true := by
  unfold delete_client at h
  rw [hf] at h
  injection h with h1 h2
  injection h2 with h3 h4
  have hcmem := List.mem_of_find?_eq_some hf
  have hccid : c.client_id = cid := by simpa using List.find?_some hf
  subst h3
  refine ⟨?_, rfl, ?_⟩
  · have hnone : (st.clients.filter fun x => x.id != c.id).find?
        (fun x => x.client_id == cid) = none := by
      rw [List.find?_eq_none]
      intro x hx hbeq
      have hxmem := (List.mem_filter.mp hx).1
      have hxid := (List.mem_filter.mp hx).2
      have hxcid : x.client_id = cid := by simpa using hbeq
      have hxc : x = c := hinv.uniqueCid x hxmem c hcmem (hxcid.trans hccid.symm)
      rw [hxc] at hxid
      simp at hxid
    unfold get_client
    rw [hnone]
  · exact List.all_eq_true.mpr fun p hp => (List.mem_filter.mp hp).2

/-- Witness for C3: deleting `C1` from `stB` makes the fetch 404 and
leaves no picture row of the deleted client. -/
theorem delete_then_get_witness :
    get_client "bkt" "C1" stBdel = .error .notFound ∧
    AppErr.notFound.status = 404 ∧
    stBdel.pictures.all (fun p => p.client_id != rowA.id) = true :=
  delete_then_get "bkt" (fun _ => false) "C1" stB ["clients/C1/t_p.png"] rowA
    { message := "Client C1 deleted" } stBdel [] 
    (by refine ⟨?_, ?_, ?_, ?_⟩ <;> simp [stB, rowA, picB])
    (by decide) (by rfl)

/-! ### C4 -/

/-- Claim C4: the response and the database component of `delete_client` are
independent of the object-store failure oracle and of the store contents;
in particular, with every `delete_object` call failing, the call still
succeeds, the client and picture rows are removed, and the store is left
untouched. -/
theorem delete_best_effort :
    (∀ s3fail s3fail' : String → Bool, ∀ cid st store store',
       (delete_client s3fail cid st store).1 = (delete_client s3fail' cid st store').1 ∧
       (delete_client s3fail cid st store).2.1 = (delete_client s3fail' cid st store').2.1) ∧
    (∀ cid st store, ∀ c : ClientRow, st.clients.find? (fun x => x.client_id == cid) = some c →
       (delete_client (fun _ => true) cid st store).1 =
         .ok { message := "Client " ++ cid ++ " deleted" } ∧
       (delete_client (fun _ => true) cid st store).2.1 =
         { st with clients := st.clients.filter (fun x => x.id != c.id),
                   pictures := st.pictures.filter (fun p => p.client_id != c.id) } ∧
       (delete_client (fun _ => true) cid st store).2.2 = store) := by
  constructor
  · intro s3fail s3fail' cid st store store'
    unfold delete_client
    cases st.clients.find? (fun x => x.client_id == cid) <;> exact ⟨rfl, rfl⟩
  · intro cid st store c hf
    refine ⟨?_, ?_, ?_⟩ <;> simp only [delete_client, hf]
    exact foldl_tryDelete_allfail (clientPictures st.pictures c.id) store

/-- Witness for C4: deleting `C1` from `stB` with every object deletion
failing still succeeds, removes the rows, and leaves the store as it
was. -/
theorem delete_best_effort_witness :
    (delete_client (fun _ => true) "C1" stB ["clients/C1/t_p.png"]).1 =
      .ok { message := "Client C1 deleted" } ∧
    (delete_client (fun _ => true) "C1" stB ["clients/C1/t_p.png"]).2.1 =
      { stB with clients := stB.clients.filter (fun x => x.id != rowA.id),
                 pictures := stB.pictures.filter (fun p => p.client_id != rowA.id) } ∧
    (delete_client (fun _ => true) "C1" stB ["clients/C1/t_p.png"]).2.2 =
      ["clients/C1/t_p.png"] :=
  delete_best_effort.2 "C1" stB ["clients/C1/t_p.png"] rowA (by decide)

/-! ### C8 -/

/-- Claim C8: `get_clients` returns all stored clients, serialized with their
nested picture lists, sorted by creation timestamp descending; for three
clients created at times t1 < t2 < t3 the order is [t3, t2, t1]. -/
theorem list_clients_sorted :
    (∀ bucket st, (get_clients bucket st).Perm
        (st.clients.map (clientToDict bucket st.pictures))) ∧
    (∀ bucket st, ((get_clients bucket st).map (fun d => d.created_at)).Sorted
        (fun a b => b ≤ a)) ∧
    (∀ bucket pics n m, ∀ c1 c2 c3 : ClientRow,
       c1.created_at < c2.created_at → c2.created_at < c3.created_at →
       get_clients bucket (DBState.mk [c1, c2, c3] pics n m) =
         [clientToDict bucket pics c3, clientToDict bucket pics c2,
          clientToDict bucket pics c1]) := by
  refine ⟨?_, ?_, ?_⟩
  · intro bucket st
    exact (List.perm_insertionSort clientOrder st.clients).map
      (clientToDict bucket st.pictures)
  · intro bucket st
    have hs := List.sorted_insertionSort clientOrder st.clients
    show (((List.insertionSort clientOrder st.clients).map
        (clientToDict bucket st.pictures)).map (fun d => d.created_at)).Sorted _
    rw [List.map_map]
    exact List.Pairwise.map _ (fun a b hab => hab) hs
  · intro bucket pics n m c1 c2 c3 h12 h23
    have H12 : ¬ clientOrder c1 c2 := by
      simp only [clientOrder, not_le]
      omega
    have H13 : ¬ clientOrder c1 c3 := by
      simp only [clientOrder, not_le]
      omega
    have H23 : ¬ clientOrder c2 c3 := by
      simp only [clientOrder, not_le]
      omega
    simp [get_clients, List.insertionSort, List.orderedInsert, H12, H13, H23]

/-- Witness for C8 on three concrete rows created at times 1 < 2 < 3. -/
theorem list_clients_sorted_witness :
    get_clients "bkt" (DBState.mk [rowT1, rowT2, rowT3] [] 4 1) =
      [clientToDict "bkt" [] rowT3, clientToDict "bkt" [] rowT2,
       clientToDict "bkt" [] rowT1] :=
  list_clients_sorted.2.2 "bkt" [] 4 1 rowT1 rowT2 rowT3 (by decide) (by decide)
